import Mathlib

/-!
Shallow embedding of the content-generator request handlers.

The repository is a Next.js application whose API routes validate caller
input, forward it to an external SDK, and poll long-running operations
until they reach a terminal state.  The embedding below translates the
relevant routes into pure Lean functions:

* `uploadLoop` / `uploadPoll` — the poll loop of `src/app/api/upload/route.ts`
  (file processing after upload, `while (state === "PROCESSING" && attempts < 30)`).
* `importLoop` / `importPoll` — the poll loop of
  `src/app/api/file-search-stores/[storeName]/import/route.ts`
  (`while (!current.done && attempts < 30)`).
* `queryHandler` — the query route (`POST` of the query/generate route).
* `uploadHandler`, `importHandler`, `filesDeleteHandler`, `storesDeleteHandler`
  — the surrounding request handlers.

Remote services are modelled as oracles: a refresh oracle `Nat → _` gives
the result of the (i+1)-th status-fetch call, and fallible SDK calls are
`Except String _` values (the thrown `Error`'s message on failure).  Each
handler also returns the list of side effects it performed (sleeps and
outbound network calls), so that claims about call counts, call ordering
and "no network call before validation" can be stated.
-/

/-- JavaScript `a || d` for an optional string `a`: `undefined` and the
empty string are falsy. -/
def jsOr (a : Option String) (d : String) : String :=
  match a with
  | none => d
  | some s => if s = "" then d else s

/-- JavaScript `s || d` for a plain string: only `""` is falsy. -/
def jsOrS (s d : String) : String :=
  if s = "" then d else s

/-- JavaScript truthiness of an optional string (`undefined`/`null`/`""` are falsy). -/
def strTruthy : Option String → Bool
  | none => false
  | some s => s != ""

/-- A JSON number carried verbatim (the code only copies confidence scores,
never computes with them, so the textual representation is enough). -/
structure JsonNum where
  val : String
deriving DecidableEq

/-- Processing state of an uploaded file (the `state` field of the SDK's
file object).  `other` stands for any state that is none of the three
named ones (e.g. `STATE_UNSPECIFIED`). -/
inductive FileState where
  | processing
  | active
  | failed
  | other
deriving DecidableEq

/-- The SDK file object, restricted to the fields the upload route reads. -/
structure GFile where
  state : FileState
  name : Option String
  errorMessage : Option String
  uri : Option String
  mimeType : Option String
  sizeBytes : Option String
  displayName : Option String
deriving DecidableEq

/-- The `error` field of a long-running operation as the import route
inspects it: absent, a string, or an object (carrying its `message`
property and its `JSON.stringify` rendering). -/
inductive ImportErrField where
  | absent
  | str (s : String)
  | obj (message : Option String) (stringified : String)
deriving DecidableEq

/-- JavaScript truthiness of the operation's `error` field
(`if (current.error)`): absent and `""` are falsy, objects are truthy. -/
def errTruthy : ImportErrField → Bool
  | .absent => false
  | .str s => s != ""
  | .obj _ _ => true

/-- The error message the import route throws
(`typeof e === "string" ? e : e?.message || JSON.stringify(e) || "Operation failed"`). -/
def errMessage : ImportErrField → String
  | .absent => "Operation failed"
  | .str s => s
  | .obj message stringified => jsOr message (jsOrS stringified "Operation failed")

/-- A long-running import operation, restricted to the fields the import
route reads.  `response` is the opaque success payload. -/
structure ImportOperation where
  done : Bool
  error : ImportErrField
  response : Option String
  name : Option String
deriving DecidableEq

/-- Outbound network calls the handlers can make.  Opaque request bodies
(file bytes, prompt text) are elided; the claim-relevant arguments are kept. -/
inductive ExtCall where
  | uploadFile (displayName : String) (mimeType : String)
  | filesGet (name : String)
  | operationsGet (opName : Option String)
  | importFile (fileName : String)
  | generateContent (storeNames : List String)
  | generateSlides (storeNames : List String)
  | createPresentation (title : String)
  | deleteFile (name : String)
  | deleteStore (name : String) (force : Bool)
deriving DecidableEq

/-- A side effect performed by a handler: suspending for a fixed number of
milliseconds, or an outbound network call. -/
inductive Effect where
  | sleep (ms : Nat)
  | call (c : ExtCall)
deriving DecidableEq

/-- Outcome of the upload-route poll loop.  `thrownNoName` is the
`throw new Error("File name not found")` guard for a file without a name. -/
inductive UploadOutcome where
  | success (f : GFile)
  | remoteFailure (msg : String)
  | pollTimeout
  | thrownNoName
deriving DecidableEq

/-- Outcome of the import-route poll loop. -/
inductive ImportOutcome where
  | success (op : ImportOperation)
  | remoteFailure (msg : String)
  | pollTimeout
deriving DecidableEq

/-- `const maxAttempts = 30` in the upload route. -/
def uploadMaxAttempts : Nat := 30

/-- `setTimeout(resolve, 1000)` in the upload route. -/
def uploadDelayMs : Nat := 1000

/-- `const maxAttempts = 30` in the import route. -/
def importMaxAttempts : Nat := 30

/-- `setTimeout(resolve, 5000)` in the import route. -/
def importDelayMs : Nat := 5000

/-- The upload route's poll loop
(`while (currentFile.state === "PROCESSING" && attempts < maxAttempts)`).
`fuel` is the number of loop iterations still allowed
(`maxAttempts - attempts`); `attempts` is the source's counter, used to
index the refresh oracle and returned as the number of refresh calls made.
The third component is the trace of sleeps and refresh calls, in order.
After the loop the route returns the file if its state is `ACTIVE` and the
timeout error otherwise. -/
def uploadLoop (refresh : Nat → GFile) (fuel attempts : Nat) (current : GFile) :
    UploadOutcome × Nat × List Effect :=
  if current.state = FileState.processing then
    match fuel with
    | 0 =>
      -- attempt budget exhausted; state is PROCESSING, hence not ACTIVE
      (UploadOutcome.pollTimeout, attempts, [])
    | fuel' + 1 =>
      if strTruthy current.name then
        let fn := current.name.getD ""
        let next := refresh attempts
        if next.state = FileState.failed then
          (UploadOutcome.remoteFailure (jsOr next.errorMessage "File processing failed"),
           attempts + 1,
           [Effect.sleep uploadDelayMs, Effect.call (ExtCall.filesGet fn)])
        else
          let rest := uploadLoop refresh fuel' (attempts + 1) next
          (rest.1, rest.2.1,
           Effect.sleep uploadDelayMs :: Effect.call (ExtCall.filesGet fn) :: rest.2.2)
      else
        (UploadOutcome.thrownNoName, attempts, [Effect.sleep uploadDelayMs])
  else
    if current.state = FileState.active then (UploadOutcome.success current, attempts, [])
    else (UploadOutcome.pollTimeout, attempts, [])

/-- The upload route's poll session: counter starts at 0, budget is 30. -/
def uploadPoll (refresh : Nat → GFile) (init : GFile) : UploadOutcome × Nat × List Effect :=
  uploadLoop refresh uploadMaxAttempts 0 init

/-- The import route's poll loop
(`while (!current.done && attempts < maxAttempts)`); after each refresh the
route throws if `current.error` is truthy, and after the loop it throws
`"Import timeout"` if the operation is still not done. -/
def importLoop (refresh : Nat → ImportOperation) (fuel attempts : Nat)
    (current : ImportOperation) : ImportOutcome × Nat × List Effect :=
  if current.done then
    (ImportOutcome.success current, attempts, [])
  else
    match fuel with
    | 0 => (ImportOutcome.pollTimeout, attempts, [])
    | fuel' + 1 =>
      let next := refresh attempts
      if errTruthy next.error then
        (ImportOutcome.remoteFailure (errMessage next.error),
         attempts + 1,
         [Effect.sleep importDelayMs, Effect.call (ExtCall.operationsGet current.name)])
      else
        let rest := importLoop refresh fuel' (attempts + 1) next
        (rest.1, rest.2.1,
         Effect.sleep importDelayMs :: Effect.call (ExtCall.operationsGet current.name) :: rest.2.2)

/-- The import route's poll session: counter starts at 0, budget is 30. -/
def importPoll (refresh : Nat → ImportOperation) (init : ImportOperation) :
    ImportOutcome × Nat × List Effect :=
  importLoop refresh importMaxAttempts 0 init

/-- A citation entry of the query route's response
(`{ segment, confidenceScore }`). -/
structure Citation where
  segment : String
  confidenceScore : Option JsonNum
deriving DecidableEq

/-- A grounding chunk of the generation result, restricted to the fields
the query route reads (`chunk.web?.uri`, `chunk.retrievedContext?.uri`,
`chunk.confidenceScore`). -/
structure Chunk where
  webUri : Option String
  retrievedContextUri : Option String
  confidenceScore : Option JsonNum
deriving DecidableEq

/-- Grounding metadata of a candidate (`groundingMetadata.groundingChunks`). -/
structure GroundingMetadata where
  groundingChunks : Option (List Chunk)
deriving DecidableEq

/-- A generation candidate (`candidates[i].groundingMetadata`). -/
structure Candidate where
  groundingMetadata : Option GroundingMetadata
deriving DecidableEq

/-- The result of `ai.models.generateContent`, restricted to the fields
the query route reads (`result.text`, `result.candidates`). -/
structure GenResult where
  text : Option String
  candidates : Option (List Candidate)
deriving DecidableEq

/-- Citation extraction of the query route:
`candidates[0]?.groundingMetadata?.groundingChunks?.map(chunk => ({
  segment: chunk.web?.uri || chunk.retrievedContext?.uri || "",
  confidenceScore: chunk.confidenceScore })) || []`
(with `const candidates = result.candidates || []`). -/
def extractCitations (r : GenResult) : List Citation :=
  let candidates := r.candidates.getD []
  match candidates.head? with
  | none => []
  | some c =>
    match c.groundingMetadata with
    | none => []
    | some gm =>
      match gm.groundingChunks with
      | none => []
      | some chunks =>
        chunks.map (fun ch =>
          { segment := jsOr ch.webUri (jsOr ch.retrievedContextUri "")
            confidenceScore := ch.confidenceScore })

/-- One slide of the generated slide content. -/
structure SlideEntry where
  title : String
  bulletPoints : List String
  notes : String
  citations : Option (List String)
deriving DecidableEq

/-- The slide content produced by `generateSlideContentFromQuery`. -/
structure SlideContent where
  title : String
  subtitle : String
  slides : List SlideEntry
deriving DecidableEq

/-- The `slides` block the query route adds to its response when
`createSlides` is requested. -/
structure SlidesInfo where
  presentationId : String
  presentationUrl : String
  slideCount : Nat
  title : String
  preview : List SlideEntry
deriving DecidableEq

/-- Response bodies of the handlers, one constructor per JSON shape the
routes produce. -/
inductive Body where
  | err (msg : String)
  | uploadOk (f : GFile)
  | importOk (response : Option String) (opName : Option String)
  | queryOk (answer : String) (citations : List Citation) (slides : Option SlidesInfo)
  | deleteOk (message : String)
deriving DecidableEq

/-- The HTTP response of the upload route for each poll outcome: thrown
errors and explicit error returns all surface as a 500 with the message. -/
def uploadRouteResponse : UploadOutcome → Nat × Body
  | .success f => (200, Body.uploadOk f)
  | .remoteFailure msg => (500, Body.err msg)
  | .pollTimeout => (500, Body.err "File processing timeout")
  | .thrownNoName => (500, Body.err "File name not found")

/-- The HTTP response of the import route for each poll outcome: both
throws are caught and surfaced as a 500 with the thrown message. -/
def importRouteResponse : ImportOutcome → Nat × Body
  | .success op => (200, Body.importOk op.response op.name)
  | .remoteFailure msg => (500, Body.err msg)
  | .pollTimeout => (500, Body.err "Import timeout")

/-- The uploaded file as the upload handler reads it (`file.name`,
`file.type`; the byte content is forwarded opaquely and elided here). -/
structure UploadedFile where
  name : String
  type : String
deriving DecidableEq

/-- The upload route handler: validation, the upload call (outcome given
by the `uploadResult` oracle, `.error` being a thrown SDK error), then the
poll loop. -/
def uploadHandler (file : Option UploadedFile) (uploadResult : Except String GFile)
    (refresh : Nat → GFile) : (Nat × Body) × List Effect :=
  match file with
  | none => ((400, Body.err "No file provided"), [])
  | some f =>
    let mime := jsOrS f.type "application/octet-stream"
    match uploadResult with
    | .error msg => ((500, Body.err msg), [Effect.call (ExtCall.uploadFile f.name mime)])
    | .ok fileData =>
      let run := uploadPoll refresh fileData
      (uploadRouteResponse run.1, Effect.call (ExtCall.uploadFile f.name mime) :: run.2.2)

/-- The regex literal `files\/[^/]+` as a character list. -/
def filesPattern : List Char := ['f', 'i', 'l', 'e', 's', '/']

/-- `String.prototype.includes` on character lists: does `pat` occur as a
contiguous subsequence? -/
def containsSub (pat : List Char) : List Char → Bool
  | [] => pat.isEmpty
  | c :: rest => pat.isPrefixOf (c :: rest) || containsSub pat rest

/-- First match of `fileUri.match(/files\/[^/]+/)`: scan positions left to
right; at the first position where `files/` is followed by at least one
non-slash character, the match is `files/` plus the maximal run of
non-slash characters. -/
def firstFilesMatchAux : List Char → Option (List Char)
  | [] => none
  | c :: rest =>
    let here := c :: rest
    let seg := (here.drop 6).takeWhile (fun x => x != '/')
    if filesPattern.isPrefixOf here && !seg.isEmpty then
      some (filesPattern ++ seg)
    else
      firstFilesMatchAux rest

/-- The import route's file-name extraction: keep `fileUri` unless it
contains `"/files/"` and the regex `files\/[^/]+` matches, in which case
the first match is used. -/
def importFileName (fileUri : String) : String :=
  if containsSub "/files/".toList fileUri.toList then
    match firstFilesMatchAux fileUri.toList with
    | some m => String.mk m
    | none => fileUri
  else fileUri

/-- The import route handler: validation, file-name extraction, the import
call, then the poll loop.  The store-name path parameter only flows into
the import call's store argument (elided from the recorded call). -/
def importHandler (fileUri : Option String) (importOp : ImportOperation)
    (refresh : Nat → ImportOperation) : (Nat × Body) × List Effect :=
  if strTruthy fileUri then
    let uri := fileUri.getD ""
    let fn := importFileName uri
    let run := importPoll refresh importOp
    (importRouteResponse run.1, Effect.call (ExtCall.importFile fn) :: run.2.2)
  else
    ((400, Body.err "fileUri is required"), [])

/-- The `fileSearchStoreNames` field of the query request body: absent, a
plain string, or an array of strings. -/
inductive StoreNamesField where
  | absent
  | str (s : String)
  | arr (l : List String)
deriving DecidableEq

/-- The query route's store validation
(`!fileSearchStoreNames || fileSearchStoreNames.length === 0`): absent and
`""` are falsy; `.length` is the string length for a string and the array
length for an array. -/
def storeNamesInvalid : StoreNamesField → Bool
  | .absent => true
  | .str s => s.length == 0
  | .arr l => l.length == 0

/-- `Array.isArray(x) ? x : [x]` of the query route (unreachable for
`absent`, which the validation rejected). -/
def normalizeStores : StoreNamesField → List String
  | .absent => []
  | .str s => [s]
  | .arr l => l

/-- The parsed query request body. -/
structure QueryRequest where
  query : Option String
  fileSearchStoreNames : StoreNamesField
  createSlides : Bool
deriving DecidableEq

/-- Which credentials the process environment supplies. -/
structure QueryEnv where
  geminiApiKey : Bool
  googleCreds : Bool
deriving DecidableEq

/-- The query route handler.  `gen` is the `ai.models.generateContent`
oracle (keyed by the forwarded store names; the wrapped markdown prompt is
elided), `slideGen` the outcome of `generateSlideContentFromQuery`, and
`slidesCreate` the outcome of `createGoogleSlides` (the presentation id).
`Except.error` is the thrown error's message, surfaced by the route's
catch as a 500. -/
def queryHandler (req : QueryRequest) (env : QueryEnv)
    (gen : List String → Except String GenResult)
    (slideGen : List String → Except String SlideContent)
    (slidesCreate : SlideContent → Except String String) : (Nat × Body) × List Effect :=
  if !strTruthy req.query then
    ((400, Body.err "Query is required"), [])
  else if storeNamesInvalid req.fileSearchStoreNames then
    ((400, Body.err "At least one fileSearchStoreName is required"), [])
  else
    let storeNames := normalizeStores req.fileSearchStoreNames
    match gen storeNames with
    | .error msg => ((500, Body.err msg), [Effect.call (ExtCall.generateContent storeNames)])
    | .ok result =>
      if !strTruthy result.text then
        ((500, Body.err "No response from Gemini"),
         [Effect.call (ExtCall.generateContent storeNames)])
      else
        let text := result.text.getD ""
        let citations := extractCitations result
        if req.createSlides then
          if !env.geminiApiKey then
            ((500, Body.err "GEMINI_API_KEY environment variable missing"),
             [Effect.call (ExtCall.generateContent storeNames)])
          else if !env.googleCreds then
            ((500, Body.err "GOOGLE_APPLICATION_CREDENTIALS environment variable missing"),
             [Effect.call (ExtCall.generateContent storeNames)])
          else
            match slideGen storeNames with
            | .error msg =>
              ((500, Body.err msg),
               [Effect.call (ExtCall.generateContent storeNames),
                Effect.call (ExtCall.generateSlides storeNames)])
            | .ok slideData =>
              match slidesCreate slideData with
              | .error msg =>
                ((500, Body.err msg),
                 [Effect.call (ExtCall.generateContent storeNames),
                  Effect.call (ExtCall.generateSlides storeNames),
                  Effect.call (ExtCall.createPresentation slideData.title)])
              | .ok pid =>
                ((200, Body.queryOk text citations (some
                    { presentationId := pid
                      presentationUrl :=
                        "https://docs.google.com/presentation/d/" ++ pid ++ "/edit"
                      slideCount := slideData.slides.length
                      title := slideData.title
                      preview := slideData.slides.take 2 })),
                 [Effect.call (ExtCall.generateContent storeNames),
                  Effect.call (ExtCall.generateSlides storeNames),
                  Effect.call (ExtCall.createPresentation slideData.title)])
        else
          ((200, Body.queryOk text citations none),
           [Effect.call (ExtCall.generateContent storeNames)])

/-- The `DELETE` handler of the files route: validation, then the delete
call (its `Except` outcome supplied by the `del` oracle). -/
def filesDeleteHandler (name : Option String) (del : String → Except String Unit) :
    (Nat × Body) × List Effect :=
  if strTruthy name then
    let nm := name.getD ""
    match del nm with
    | .ok _ => ((200, Body.deleteOk "File deleted successfully"),
                [Effect.call (ExtCall.deleteFile nm)])
    | .error msg => ((500, Body.err msg), [Effect.call (ExtCall.deleteFile nm)])
  else
    ((400, Body.err "File name is required"), [])

/-- The `DELETE` handler of the stores route: validation
(`force` is `searchParams.get("force") === "true"`), then the delete call. -/
def storesDeleteHandler (name : Option String) (force : Option String)
    (del : String → Bool → Except String Unit) : (Nat × Body) × List Effect :=
  if strTruthy name then
    let nm := name.getD ""
    let f := force == some "true"
    match del nm f with
    | .ok _ => ((200, Body.deleteOk "File Search Store deleted successfully"),
                [Effect.call (ExtCall.deleteStore nm f)])
    | .error msg => ((500, Body.err msg), [Effect.call (ExtCall.deleteStore nm f)])
  else
    ((400, Body.err "Store name is required"), [])

/-- Checks that a trace is a sequence of (fixed delay, network call) pairs,
possibly ending in a lone delay of the same duration (the case of a loop
iteration aborted between its sleep and its refresh call): every call is
immediately preceded by a sleep of duration `d`, and every sleep has
duration `d`. -/
def delayedCalls (d : Nat) : List Effect → Bool
  | [] => true
  | [Effect.sleep d'] => d' == d
  | Effect.sleep d' :: Effect.call _ :: rest => d' == d && delayedCalls d rest
  | _ => false

/-- A file still being processed (fixture). -/
def procFile : GFile :=
  ⟨FileState.processing, some "files/f1", none, none, none, none, none⟩

/-- A processed file (fixture). -/
def activeFile : GFile :=
  ⟨FileState.active, some "files/f1", none, some "https://host/files/f1",
   some "application/pdf", some "123", some "doc.pdf"⟩

/-- A failed file whose remote detail is "boom" (fixture). -/
def failedBoomFile : GFile :=
  ⟨FileState.failed, some "files/f1", some "boom", none, none, none, none⟩

/-- A failed file whose remote detail happens to equal the route's fixed
timeout message (fixture). -/
def failedTimeoutMsgFile : GFile :=
  ⟨FileState.failed, some "files/f1", some "File processing timeout",
   none, none, none, none⟩

/-- A pending import operation (fixture). -/
def pendOp : ImportOperation := ⟨false, ImportErrField.absent, none, some "operations/op1"⟩

/-- A completed import operation (fixture). -/
def doneOp : ImportOperation :=
  ⟨true, ImportErrField.absent, some "imported-doc", some "operations/op1"⟩

/-- An operation whose refresh reports an error detail (fixture). -/
def errOp : ImportOperation :=
  ⟨false, ImportErrField.obj (some "quota exceeded") "\x7b\x7d", none, some "operations/op1"⟩

/-- A refresh oracle that is pending once, then returns a failed file (fixture). -/
def failRefreshU : Nat → GFile := fun i => if i = 0 then procFile else failedBoomFile

/-- A refresh oracle that is pending once, then returns an operation with
an error detail (fixture). -/
def failRefreshI : Nat → ImportOperation := fun i => if i = 0 then pendOp else errOp

/-- A grounding chunk with a web URI and a confidence score (fixture). -/
def citedChunk : Chunk := ⟨some "https://src/doc", none, some ⟨"0.93"⟩⟩

/-- A grounding chunk with only a retrieved-context URI (fixture). -/
def ctxChunk : Chunk := ⟨none, some "ctx://doc2", none⟩

/-- A generation result with two grounding chunks (fixture). -/
def genResultFix : GenResult :=
  ⟨some "answer text", some [⟨some ⟨some [citedChunk, ctxChunk]⟩⟩]⟩

/-- A generation oracle returning `genResultFix` (fixture). -/
def genFix : List String → Except String GenResult := fun _ => Except.ok genResultFix

/-- A slide-generation oracle never reached by the fixtures (fixture). -/
def slideGenUnused : List String → Except String SlideContent := fun _ => Except.error "unused"

/-- A slides-creation oracle never reached by the fixtures (fixture). -/
def slidesCreateUnused : SlideContent → Except String String := fun _ => Except.error "unused"

/-- A delete oracle that succeeds (fixture). -/
def delOk : String → Except String Unit := fun _ => Except.ok ()

/-- A store-delete oracle that succeeds (fixture). -/
def delStoreOk : String → Bool → Except String Unit := fun _ _ => Except.ok ()

/-! ## Poll-loop lemmas -/

/-- If the first `k` refreshes keep the file processing (and named) and the
(k+1)-th reports `FAILED`, the upload loop stops there with the remote
detail and a call count of exactly `k + 1`. -/
lemma uploadLoop_failure (refresh : Nat → GFile) :
    ∀ (k fuel attempts : Nat) (current : GFile),
      current.state = FileState.processing →
      strTruthy current.name = true →
      k < fuel →
      (∀ i, i < k → (refresh (attempts + i)).state = FileState.processing ∧
        strTruthy (refresh (attempts + i)).name = true) →
      (refresh (attempts + k)).state = FileState.failed →
      (uploadLoop refresh fuel attempts current).1 =
        UploadOutcome.remoteFailure
          (jsOr (refresh (attempts + k)).errorMessage "File processing failed") ∧
      (uploadLoop refresh fuel attempts current).2.1 = attempts + k + 1 := by
  intro k
  induction k with
  | zero =>
    intro fuel attempts current hst hnm hk _ hfail
    match fuel, hk with
    | fuel' + 1, _ =>
      rw [Nat.add_zero] at hfail
      simp [uploadLoop, hst, hnm, hfail]
  | succ k ih =>
    intro fuel attempts current hst hnm hk hall hfail
    match fuel, hk with
    | fuel' + 1, _ =>
      have h0 := hall 0 (Nat.succ_pos k)
      rw [Nat.add_zero] at h0
      have hnf : ¬((refresh attempts).state = FileState.failed) := by
        rw [h0.1]; decide
      have hall' : ∀ i, i < k → (refresh (attempts + 1 + i)).state = FileState.processing ∧
          strTruthy (refresh (attempts + 1 + i)).name = true := by
        intro i hi
        have := hall (i + 1) (by omega)
        rwa [show attempts + (i + 1) = attempts + 1 + i by omega] at this
      have hfail' : (refresh (attempts + 1 + k)).state = FileState.failed := by
        rwa [show attempts + 1 + k = attempts + (k + 1) by omega]
      have hrec := ih fuel' (attempts + 1) (refresh attempts) h0.1 h0.2 (by omega) hall' hfail'
      simp only [uploadLoop, hst, hnm, hnf, if_true, if_false, ite_true, ite_false]
      rw [show attempts + (k + 1) = attempts + 1 + k by omega]
      exact hrec

/-- If the first `k` refreshes keep the operation pending with a falsy
error and the (k+1)-th carries a truthy error detail, the import loop
stops there with the extracted message and a call count of exactly `k + 1`. -/
lemma importLoop_failure (refresh : Nat → ImportOperation) :
    ∀ (k fuel attempts : Nat) (current : ImportOperation),
      current.done = false →
      k < fuel →
      (∀ i, i < k → (refresh (attempts + i)).done = false ∧
        errTruthy (refresh (attempts + i)).error = false) →
      errTruthy (refresh (attempts + k)).error = true →
      (importLoop refresh fuel attempts current).1 =
        ImportOutcome.remoteFailure (errMessage (refresh (attempts + k)).error) ∧
      (importLoop refresh fuel attempts current).2.1 = attempts + k + 1 := by
  intro k
  induction k with
  | zero =>
    intro fuel attempts current hdone hk _ herr
    match fuel, hk with
    | fuel' + 1, _ =>
      rw [Nat.add_zero] at herr
      simp [importLoop, hdone, herr]
  | succ k ih =>
    intro fuel attempts current hdone hk hall herr
    match fuel, hk with
    | fuel' + 1, _ =>
      have h0 := hall 0 (Nat.succ_pos k)
      rw [Nat.add_zero] at h0
      have hall' : ∀ i, i < k → (refresh (attempts + 1 + i)).done = false ∧
          errTruthy (refresh (attempts + 1 + i)).error = false := by
        intro i hi
        have := hall (i + 1) (by omega)
        rwa [show attempts + (i + 1) = attempts + 1 + i by omega] at this
      have herr' : errTruthy (refresh (attempts + 1 + k)).error = true := by
        rwa [show attempts + 1 + k = attempts + (k + 1) by omega]
      have hrec := ih fuel' (attempts + 1) (refresh attempts) h0.1 (by omega) hall' herr'
      simp only [importLoop, hdone, h0.2, if_true, if_false, ite_true, ite_false,
        Bool.false_eq_true]
      rw [show attempts + (k + 1) = attempts + 1 + k by omega]
      exact hrec

/-- If every refresh for the remaining budget keeps the file processing
(and named), the upload loop exhausts its budget and times out, having
made exactly `fuel` more calls. -/
lemma uploadLoop_pending (refresh : Nat → GFile) :
    ∀ (fuel attempts : Nat) (current : GFile),
      current.state = FileState.processing →
      strTruthy current.name = true →
      (∀ i, i < fuel → (refresh (attempts + i)).state = FileState.processing ∧
        strTruthy (refresh (attempts + i)).name = true) →
      (uploadLoop refresh fuel attempts current).1 = UploadOutcome.pollTimeout ∧
      (uploadLoop refresh fuel attempts current).2.1 = attempts + fuel := by
  intro fuel
  induction fuel with
  | zero =>
    intro attempts current hst _ _
    simp [uploadLoop, hst]
  | succ fuel ih =>
    intro attempts current hst hnm hall
    have h0 := hall 0 (Nat.succ_pos fuel)
    rw [Nat.add_zero] at h0
    have hnf : ¬((refresh attempts).state = FileState.failed) := by
      rw [h0.1]; decide
    have hall' : ∀ i, i < fuel → (refresh (attempts + 1 + i)).state = FileState.processing ∧
        strTruthy (refresh (attempts + 1 + i)).name = true := by
      intro i hi
      have := hall (i + 1) (by omega)
      rwa [show attempts + (i + 1) = attempts + 1 + i by omega] at this
    have hrec := ih (attempts + 1) (refresh attempts) h0.1 h0.2 hall'
    simp only [uploadLoop, hst, hnm, hnf, if_true, if_false, ite_true, ite_false]
    rw [show attempts + (fuel + 1) = attempts + 1 + fuel by omega]
    exact hrec

/-- If every refresh for the remaining budget keeps the operation pending
with a falsy error, the import loop exhausts its budget and times out,
having made exactly `fuel` more calls. -/
lemma importLoop_pending (refresh : Nat → ImportOperation) :
    ∀ (fuel attempts : Nat) (current : ImportOperation),
      current.done = false →
      (∀ i, i < fuel → (refresh (attempts + i)).done = false ∧
        errTruthy (refresh (attempts + i)).error = false) →
      (importLoop refresh fuel attempts current).1 = ImportOutcome.pollTimeout ∧
      (importLoop refresh fuel attempts current).2.1 = attempts + fuel := by
  intro fuel
  induction fuel with
  | zero =>
    intro attempts current hdone _
    simp [importLoop, hdone]
  | succ fuel ih =>
    intro attempts current hdone hall
    have h0 := hall 0 (Nat.succ_pos fuel)
    rw [Nat.add_zero] at h0
    have hall' : ∀ i, i < fuel → (refresh (attempts + 1 + i)).done = false ∧
        errTruthy (refresh (attempts + 1 + i)).error = false := by
      intro i hi
      have := hall (i + 1) (by omega)
      rwa [show attempts + (i + 1) = attempts + 1 + i by omega] at this
    have hrec := ih (attempts + 1) (refresh attempts) h0.1 hall'
    simp only [importLoop, hdone, h0.2, if_true, if_false, ite_true, ite_false,
      Bool.false_eq_true]
    rw [show attempts + (fuel + 1) = attempts + 1 + fuel by omega]
    exact hrec

/-- The upload loop only reports success for a file in the `ACTIVE` state. -/
lemma uploadLoop_success_active (refresh : Nat → GFile) :
    ∀ (fuel attempts : Nat) (current : GFile) (f : GFile),
      (uploadLoop refresh fuel attempts current).1 = UploadOutcome.success f →
      f.state = FileState.active := by
  intro fuel
  induction fuel with
  | zero =>
    intro attempts current f h
    by_cases hst : current.state = FileState.processing
    · simp [uploadLoop, hst] at h
    · by_cases hac : current.state = FileState.active
      · simp [uploadLoop, hst, hac] at h
        rw [← h, hac]
      · simp [uploadLoop, hst, hac] at h
  | succ fuel ih =>
    intro attempts current f h
    by_cases hst : current.state = FileState.processing
    · by_cases hnm : strTruthy current.name = true
      · by_cases hf : (refresh attempts).state = FileState.failed
        · simp [uploadLoop, hst, hnm, hf] at h
        · simp only [uploadLoop, hst, hnm, hf, if_true, if_false, ite_true, ite_false] at h
          exact ih (attempts + 1) (refresh attempts) f h
      · simp [uploadLoop, hst, hnm] at h
    · by_cases hac : current.state = FileState.active
      · simp [uploadLoop, hst, hac] at h
        rw [← h, hac]
      · simp [uploadLoop, hst, hac] at h

/-- The import loop only reports success for an operation whose `done`
flag is set. -/
lemma importLoop_success_done (refresh : Nat → ImportOperation) :
    ∀ (fuel attempts : Nat) (current : ImportOperation) (op : ImportOperation),
      (importLoop refresh fuel attempts current).1 = ImportOutcome.success op →
      op.done = true := by
  intro fuel
  induction fuel with
  | zero =>
    intro attempts current op h
    by_cases hdone : current.done = true
    · simp [importLoop, hdone] at h
      rw [← h, hdone]
    · simp only [Bool.not_eq_true] at hdone
      simp [importLoop, hdone] at h
  | succ fuel ih =>
    intro attempts current op h
    by_cases hdone : current.done = true
    · simp [importLoop, hdone] at h
      rw [← h, hdone]
    · simp only [Bool.not_eq_true] at hdone
      by_cases herr : errTruthy (refresh attempts).error = true
      · simp [importLoop, hdone, herr] at h
      · simp only [Bool.not_eq_true] at herr
        simp only [importLoop, hdone, herr, if_true, if_false, ite_true, ite_false,
          Bool.false_eq_true] at h
        exact ih (attempts + 1) (refresh attempts) op h

/-- When the initial file and every refreshed file carry a name, the
upload loop never hits the missing-name throw. -/
lemma uploadLoop_no_thrownNoName (refresh : Nat → GFile) :
    ∀ (fuel attempts : Nat) (current : GFile),
      strTruthy current.name = true →
      (∀ i, strTruthy (refresh i).name = true) →
      (uploadLoop refresh fuel attempts current).1 ≠ UploadOutcome.thrownNoName := by
  intro fuel
  induction fuel with
  | zero =>
    intro attempts current _ _ h
    by_cases hst : current.state = FileState.processing
    · simp [uploadLoop, hst] at h
    · by_cases hac : current.state = FileState.active
      · simp [uploadLoop, hst, hac] at h
      · simp [uploadLoop, hst, hac] at h
  | succ fuel ih =>
    intro attempts current hnm hall h
    by_cases hst : current.state = FileState.processing
    · by_cases hf : (refresh attempts).state = FileState.failed
      · simp [uploadLoop, hst, hnm, hf] at h
      · simp only [uploadLoop, hst, hnm, hf, if_true, if_false, ite_true, ite_false] at h
        exact ih (attempts + 1) (refresh attempts) (hall attempts) hall h
    · by_cases hac : current.state = FileState.active
      · simp [uploadLoop, hst, hac] at h
      · simp [uploadLoop, hst, hac] at h

/-- Every trace of the upload loop is a sequence of
(1000 ms sleep, refresh call) pairs, possibly ending in a lone sleep. -/
lemma uploadLoop_delayed (refresh : Nat → GFile) :
    ∀ (fuel attempts : Nat) (current : GFile),
      delayedCalls uploadDelayMs (uploadLoop refresh fuel attempts current).2.2 = true := by
  intro fuel
  induction fuel with
  | zero =>
    intro attempts current
    by_cases hst : current.state = FileState.processing
    · simp [uploadLoop, hst, delayedCalls]
    · by_cases hac : current.state = FileState.active
      · simp [uploadLoop, hst, hac, delayedCalls]
      · simp [uploadLoop, hst, hac, delayedCalls]
  | succ fuel ih =>
    intro attempts current
    by_cases hst : current.state = FileState.processing
    · by_cases hnm : strTruthy current.name = true
      · by_cases hf : (refresh attempts).state = FileState.failed
        · simp [uploadLoop, hst, hnm, hf, delayedCalls]
        · simp only [uploadLoop, hst, hnm, hf, if_true, if_false, ite_true, ite_false]
          simp only [delayedCalls, beq_self_eq_true, Bool.true_and]
          exact ih (attempts + 1) (refresh attempts)
      · simp [uploadLoop, hst, hnm, delayedCalls]
    · by_cases hac : current.state = FileState.active
      · simp [uploadLoop, hst, hac, delayedCalls]
      · simp [uploadLoop, hst, hac, delayedCalls]

/-- Every trace of the import loop is a sequence of
(5000 ms sleep, refresh call) pairs. -/
lemma importLoop_delayed (refresh : Nat → ImportOperation) :
    ∀ (fuel attempts : Nat) (current : ImportOperation),
      delayedCalls importDelayMs (importLoop refresh fuel attempts current).2.2 = true := by
  intro fuel
  induction fuel with
  | zero =>
    intro attempts current
    by_cases hdone : current.done = true
    · simp [importLoop, hdone, delayedCalls]
    · simp only [Bool.not_eq_true] at hdone
      simp [importLoop, hdone, delayedCalls]
  | succ fuel ih =>
    intro attempts current
    by_cases hdone : current.done = true
    · simp [importLoop, hdone, delayedCalls]
    · simp only [Bool.not_eq_true] at hdone
      by_cases herr : errTruthy (refresh attempts).error = true
      · simp [importLoop, hdone, herr, delayedCalls]
      · simp only [Bool.not_eq_true] at herr
        simp only [importLoop, hdone, herr, if_true, if_false, ite_true, ite_false,
          Bool.false_eq_true]
        simp only [delayedCalls, beq_self_eq_true, Bool.true_and]
        exact ih (attempts + 1) (refresh attempts)

/-! ## Claim theorems -/

/-- C1: if a refresh call returns a failed operation (file state `FAILED`
in the upload poller; a truthy error detail in the import poller) on the
(k+1)-th call, the poller stops with the remote-supplied failure detail
after exactly k+1 refresh calls, performing none after that one.  The
hypotheses say the poll session reaches that call: the operation was still
pending on every earlier refresh (and, per the data model, every file
carries its name/handle). -/
theorem poller_failed_raises_remote_failure_immediately :
    (∀ (refresh : Nat → GFile) (init : GFile) (k : Nat),
      init.state = FileState.processing →
      strTruthy init.name = true →
      k < uploadMaxAttempts →
      (∀ i, i < k → (refresh i).state = FileState.processing ∧
        strTruthy (refresh i).name = true) →
      (refresh k).state = FileState.failed →
      (uploadPoll refresh init).1 =
        UploadOutcome.remoteFailure (jsOr (refresh k).errorMessage "File processing failed") ∧
      (uploadPoll refresh init).2.1 = k + 1) ∧
    (∀ (refresh : Nat → ImportOperation) (init : ImportOperation) (k : Nat),
      init.done = false →
      k < importMaxAttempts →
      (∀ i, i < k → (refresh i).done = false ∧ errTruthy (refresh i).error = false) →
      errTruthy (refresh k).error = true →
      (importPoll refresh init).1 =
        ImportOutcome.remoteFailure (errMessage (refresh k).error) ∧
      (importPoll refresh init).2.1 = k + 1) := by
  constructor
  · intro refresh init k hst hnm hk hall hfail
    have h := uploadLoop_failure refresh k uploadMaxAttempts 0 init hst hnm hk
      (by simpa using hall) (by simpa using hfail)
    simpa [uploadPoll] using h
  · intro refresh init k hdone hk hall hfail
    have h := importLoop_failure refresh k importMaxAttempts 0 init hdone hk
      (by simpa using hall) (by simpa using hfail)
    simpa [importPoll] using h

/-- C1 witness: concrete sessions failing on the second refresh stop with
the remote detail after exactly two calls. -/
theorem poller_failed_raises_remote_failure_immediately_witness :
    ((uploadPoll failRefreshU procFile).1 = UploadOutcome.remoteFailure "boom" ∧
     (uploadPoll failRefreshU procFile).2.1 = 2) ∧
    ((importPoll failRefreshI pendOp).1 = ImportOutcome.remoteFailure "quota exceeded" ∧
     (importPoll failRefreshI pendOp).2.1 = 2) := by
  constructor
  · have h := poller_failed_raises_remote_failure_immediately.1 failRefreshU procFile 1
      (by decide) (by decide) (by decide) (by decide) (by decide)
    exact ⟨h.1.trans (by decide), h.2⟩
  · have h := poller_failed_raises_remote_failure_immediately.2 failRefreshI pendOp 1
      (by decide) (by decide) (by decide) (by decide)
    exact ⟨h.1.trans (by decide), h.2⟩

/-- C2: a session whose operation is still pending on every refresh ends
in the poller's timeout after exactly 30 refresh calls, never more (the
name hypotheses are the data model's identity invariant). -/
theorem poller_pending_times_out_after_thirty :
    (∀ (refresh : Nat → GFile) (init : GFile),
      init.state = FileState.processing →
      strTruthy init.name = true →
      (∀ i, i < uploadMaxAttempts → (refresh i).state = FileState.processing ∧
        strTruthy (refresh i).name = true) →
      (uploadPoll refresh init).1 = UploadOutcome.pollTimeout ∧
      (uploadPoll refresh init).2.1 = 30) ∧
    (∀ (refresh : Nat → ImportOperation) (init : ImportOperation),
      init.done = false →
      (∀ i, i < importMaxAttempts → (refresh i).done = false ∧
        errTruthy (refresh i).error = false) →
      (importPoll refresh init).1 = ImportOutcome.pollTimeout ∧
      (importPoll refresh init).2.1 = 30) := by
  constructor
  · intro refresh init hst hnm hall
    have h := uploadLoop_pending refresh uploadMaxAttempts 0 init hst hnm (by simpa using hall)
    simpa [uploadPoll] using h
  · intro refresh init hdone hall
    have h := importLoop_pending refresh importMaxAttempts 0 init hdone (by simpa using hall)
    simpa [importPoll] using h

/-- C2 witness: sessions whose refreshes stay pending forever time out
after exactly 30 calls. -/
theorem poller_pending_times_out_after_thirty_witness :
    ((uploadPoll (fun _ => procFile) procFile).1 = UploadOutcome.pollTimeout ∧
     (uploadPoll (fun _ => procFile) procFile).2.1 = 30) ∧
    ((importPoll (fun _ => pendOp) pendOp).1 = ImportOutcome.pollTimeout ∧
     (importPoll (fun _ => pendOp) pendOp).2.1 = 30) :=
  ⟨poller_pending_times_out_after_thirty.1 (fun _ => procFile) procFile
      (by decide) (by decide) (by decide),
   poller_pending_times_out_after_thirty.2 (fun _ => pendOp) pendOp
      (by decide) (by decide)⟩

/-- C3 counterexample: an initial upload file already in the terminal
`FAILED` state triggers zero refresh calls, but the poller does not return
that operation — it produces the timeout outcome, whose response is the
fixed timeout error rather than the remote-supplied detail. -/
theorem upload_initial_failed_not_returned :
    (uploadPoll (fun _ => activeFile) failedBoomFile).1 = UploadOutcome.pollTimeout ∧
    (uploadPoll (fun _ => activeFile) failedBoomFile).2.1 = 0 ∧
    UploadOutcome.pollTimeout ≠ UploadOutcome.success failedBoomFile ∧
    uploadRouteResponse (uploadPoll (fun _ => activeFile) failedBoomFile).1 =
      (500, Body.err "File processing timeout") := by decide

/-- C3 amended: an initial Operation in a terminal state triggers zero
refresh calls; the upload poller returns the file only when the initial
state is `ACTIVE` and otherwise (including `FAILED`) yields the timeout
outcome, while the import poller returns the operation immediately exactly
when its `done` flag is set. -/
theorem poller_initial_terminal_zero_refresh :
    (∀ (refresh : Nat → GFile) (init : GFile),
      init.state ≠ FileState.processing →
      (uploadPoll refresh init).2.1 = 0 ∧
      (uploadPoll refresh init).2.2 = [] ∧
      (init.state = FileState.active →
        (uploadPoll refresh init).1 = UploadOutcome.success init) ∧
      (init.state ≠ FileState.active →
        (uploadPoll refresh init).1 = UploadOutcome.pollTimeout)) ∧
    (∀ (refresh : Nat → ImportOperation) (init : ImportOperation),
      init.done = true →
      importPoll refresh init = (ImportOutcome.success init, 0, [])) := by
  constructor
  · intro refresh init hst
    by_cases hac : init.state = FileState.active
    · simp [uploadPoll, uploadLoop, hst, hac]
    · simp [uploadPoll, uploadLoop, hst, hac]
  · intro refresh init hdone
    simp [importPoll, importLoop, hdone]

/-- C3 amended witness: an already-`ACTIVE` file and an already-done
operation are returned immediately with zero refresh calls. -/
theorem poller_initial_terminal_zero_refresh_witness :
    ((uploadPoll (fun _ => procFile) activeFile).2.1 = 0 ∧
     (uploadPoll (fun _ => procFile) activeFile).1 = UploadOutcome.success activeFile) ∧
    importPoll (fun _ => pendOp) doneOp = (ImportOutcome.success doneOp, 0, []) := by
  have h := poller_initial_terminal_zero_refresh.1 (fun _ => procFile) activeFile (by decide)
  exact ⟨⟨h.1, h.2.2.1 (by decide)⟩,
    poller_initial_terminal_zero_refresh.2 (fun _ => pendOp) doneOp (by decide)⟩

/-- C4: a success outcome always carries an operation in the done state
(`ACTIVE` file / `done` flag set) together with its payload in the 200
response, so no pending operation is ever returned as success; and under
the data model's identity invariant the upload poller's only other
outcomes are the remote failure and the timeout. -/
theorem poller_success_is_terminal :
    (∀ (refresh : Nat → GFile) (init f : GFile),
      (uploadPoll refresh init).1 = UploadOutcome.success f →
      f.state = FileState.active ∧
      uploadRouteResponse (UploadOutcome.success f) = (200, Body.uploadOk f)) ∧
    (∀ (refresh : Nat → ImportOperation) (init op : ImportOperation),
      (importPoll refresh init).1 = ImportOutcome.success op →
      op.done = true ∧
      importRouteResponse (ImportOutcome.success op) =
        (200, Body.importOk op.response op.name)) ∧
    (∀ (refresh : Nat → GFile) (init : GFile),
      strTruthy init.name = true →
      (∀ i, strTruthy (refresh i).name = true) →
      (uploadPoll refresh init).1 ≠ UploadOutcome.thrownNoName) := by
  refine ⟨?_, ?_, ?_⟩
  · intro refresh init f h
    exact ⟨uploadLoop_success_active refresh uploadMaxAttempts 0 init f h, rfl⟩
  · intro refresh init op h
    exact ⟨importLoop_success_done refresh importMaxAttempts 0 init op h, rfl⟩
  · intro refresh init hnm hall
    exact uploadLoop_no_thrownNoName refresh uploadMaxAttempts 0 init hnm hall

/-- C4 witness: concrete successful sessions have done-state results, and
a named pending session never hits the missing-name throw. -/
theorem poller_success_is_terminal_witness :
    activeFile.state = FileState.active ∧ doneOp.done = true ∧
    (uploadPoll (fun _ => procFile) procFile).1 ≠ UploadOutcome.thrownNoName :=
  ⟨(poller_success_is_terminal.1 (fun _ => activeFile) procFile activeFile (by decide)).1,
   (poller_success_is_terminal.2.1 (fun _ => doneOp) pendOp doneOp (by decide)).1,
   poller_success_is_terminal.2.2 (fun _ => procFile) procFile (by decide)
     (fun _ => (by decide : strTruthy procFile.name = true))⟩

/-- C5 counterexample: a remote failure whose detail is exactly the fixed
timeout string produces a caller-visible response identical to the timeout
response, so the two error outcomes can coincide. -/
theorem timeout_and_remote_failure_responses_coincide :
    (uploadPoll (fun _ => failedTimeoutMsgFile) procFile).1 =
      UploadOutcome.remoteFailure "File processing timeout" ∧
    (uploadPoll (fun _ => procFile) procFile).1 = UploadOutcome.pollTimeout ∧
    uploadRouteResponse (uploadPoll (fun _ => failedTimeoutMsgFile) procFile).1 =
      uploadRouteResponse (uploadPoll (fun _ => procFile) procFile).1 := by decide

/-- C5 amended: a timeout session and a remote-failure session are
distinguishable by the caller whenever the remote-supplied detail differs
from the fixed timeout message ("File processing timeout" / "Import
timeout"); only a detail equal to that string makes the responses
coincide. -/
theorem timeout_distinct_when_detail_differs :
    (∀ (r1 r2 : Nat → GFile) (i1 i2 : GFile) (msg : String),
      (uploadPoll r1 i1).1 = UploadOutcome.remoteFailure msg →
      (uploadPoll r2 i2).1 = UploadOutcome.pollTimeout →
      msg ≠ "File processing timeout" →
      uploadRouteResponse (uploadPoll r1 i1).1 ≠ uploadRouteResponse (uploadPoll r2 i2).1) ∧
    (∀ (r1 r2 : Nat → ImportOperation) (i1 i2 : ImportOperation) (msg : String),
      (importPoll r1 i1).1 = ImportOutcome.remoteFailure msg →
      (importPoll r2 i2).1 = ImportOutcome.pollTimeout →
      msg ≠ "Import timeout" →
      importRouteResponse (importPoll r1 i1).1 ≠ importRouteResponse (importPoll r2 i2).1) := by
  constructor
  · intro r1 r2 i1 i2 msg h1 h2 hne
    rw [h1, h2]
    simpa [uploadRouteResponse] using hne
  · intro r1 r2 i1 i2 msg h1 h2 hne
    rw [h1, h2]
    simpa [importRouteResponse] using hne

/-- C5 amended witness: with detail "boom" / "quota exceeded" the two
error responses differ. -/
theorem timeout_distinct_when_detail_differs_witness :
    uploadRouteResponse (uploadPoll (fun _ => failedBoomFile) procFile).1 ≠
      uploadRouteResponse (uploadPoll (fun _ => procFile) procFile).1 ∧
    importRouteResponse (importPoll (fun _ => errOp) pendOp).1 ≠
      importRouteResponse (importPoll (fun _ => pendOp) pendOp).1 :=
  ⟨timeout_distinct_when_detail_differs.1 (fun _ => failedBoomFile) (fun _ => procFile)
      procFile procFile "boom" (by decide) (by decide) (by decide),
   timeout_distinct_when_detail_differs.2 (fun _ => errOp) (fun _ => pendOp)
      pendOp pendOp "quota exceeded" (by decide) (by decide) (by decide)⟩

/-- C6: in every poll session the trace is a sequence of
(fixed delay, refresh call) pairs — the delay precedes each refresh and is
the same on every iteration — and the call sites use a 1000 ms delay with
a 30-attempt budget for file processing and a 5000 ms delay with a
30-attempt budget for store import. -/
theorem poll_delay_precedes_each_refresh :
    (∀ (refresh : Nat → GFile) (init : GFile),
      delayedCalls uploadDelayMs (uploadPoll refresh init).2.2 = true) ∧
    (∀ (refresh : Nat → ImportOperation) (init : ImportOperation),
      delayedCalls importDelayMs (importPoll refresh init).2.2 = true) ∧
    uploadDelayMs = 1000 ∧ uploadMaxAttempts = 30 ∧
    importDelayMs = 5000 ∧ importMaxAttempts = 30 := by
  refine ⟨?_, ?_, rfl, rfl, rfl, rfl⟩
  · intro refresh init
    exact uploadLoop_delayed refresh uploadMaxAttempts 0 init
  · intro refresh init
    exact importLoop_delayed refresh importMaxAttempts 0 init

/-- JS `a || (b || "")` written as the spec phrases it: the web URI if
truthy, else the retrieved-context URI if truthy, else the empty string. -/
lemma jsOr_chain (a b : Option String) :
    jsOr a (jsOr b "") =
      if strTruthy a then a.getD "" else if strTruthy b then b.getD "" else "" := by
  cases a <;> cases b <;> simp only [jsOr, strTruthy, Option.getD] <;> split_ifs <;>
    simp_all

/-- A non-empty string has non-zero length. -/
lemma strLength_ne_zero (s : String) (h : s ≠ "") : (s.length == 0) = false := by
  cases s with
  | mk data =>
    cases data with
    | nil => exact absurd rfl h
    | cons c cs => simp [String.length]

/-- C7: every request with missing required input — absent file on upload,
falsy query or falsy/empty store-name field on query, falsy fileUri on
import, falsy name on file or store deletion — receives the route's 400
validation response with an empty effect trace: no external call (and no
sleep) happens before validation. -/
theorem validation_rejects_before_external_calls :
    (∀ (u : Except String GFile) (r : Nat → GFile),
      uploadHandler none u r = ((400, Body.err "No file provided"), [])) ∧
    (∀ (req : QueryRequest) (env : QueryEnv)
       (gen : List String → Except String GenResult)
       (slideGen : List String → Except String SlideContent)
       (slidesCreate : SlideContent → Except String String),
      strTruthy req.query = false →
      queryHandler req env gen slideGen slidesCreate =
        ((400, Body.err "Query is required"), [])) ∧
    (∀ (req : QueryRequest) (env : QueryEnv)
       (gen : List String → Except String GenResult)
       (slideGen : List String → Except String SlideContent)
       (slidesCreate : SlideContent → Except String String),
      strTruthy req.query = true →
      storeNamesInvalid req.fileSearchStoreNames = true →
      queryHandler req env gen slideGen slidesCreate =
        ((400, Body.err "At least one fileSearchStoreName is required"), [])) ∧
    (∀ (fileUri : Option String) (op : ImportOperation) (r : Nat → ImportOperation),
      strTruthy fileUri = false →
      importHandler fileUri op r = ((400, Body.err "fileUri is required"), [])) ∧
    (∀ (name : Option String) (del : String → Except String Unit),
      strTruthy name = false →
      filesDeleteHandler name del = ((400, Body.err "File name is required"), [])) ∧
    (∀ (name force : Option String) (del : String → Bool → Except String Unit),
      strTruthy name = false →
      storesDeleteHandler name force del = ((400, Body.err "Store name is required"), [])) := by
  refine ⟨fun u r => rfl, ?_, ?_, ?_, ?_, ?_⟩
  · intro req env gen sg sc hq
    simp [queryHandler, hq]
  · intro req env gen sg sc hq hs
    simp [queryHandler, hq, hs]
  · intro fileUri op r h
    simp [importHandler, h]
  · intro name del h
    simp [filesDeleteHandler, h]
  · intro name force del h
    simp [storesDeleteHandler, h]

/-- C7 witness: each handler rejects a concrete invalid request with a 400
and an empty effect trace. -/
theorem validation_rejects_before_external_calls_witness :
    uploadHandler none (Except.ok procFile) (fun _ => procFile) =
      ((400, Body.err "No file provided"), []) ∧
    queryHandler ⟨none, StoreNamesField.arr ["stores/s1"], false⟩ ⟨true, true⟩
        genFix slideGenUnused slidesCreateUnused =
      ((400, Body.err "Query is required"), []) ∧
    queryHandler ⟨some "q", StoreNamesField.arr [], false⟩ ⟨true, true⟩
        genFix slideGenUnused slidesCreateUnused =
      ((400, Body.err "At least one fileSearchStoreName is required"), []) ∧
    importHandler none doneOp (fun _ => doneOp) =
      ((400, Body.err "fileUri is required"), []) ∧
    filesDeleteHandler (some "") delOk = ((400, Body.err "File name is required"), []) ∧
    storesDeleteHandler none (some "true") delStoreOk =
      ((400, Body.err "Store name is required"), []) :=
  ⟨validation_rejects_before_external_calls.1 (Except.ok procFile) (fun _ => procFile),
   validation_rejects_before_external_calls.2.1 _ _ _ _ _ (by decide),
   validation_rejects_before_external_calls.2.2.1 _ _ _ _ _ (by decide) (by decide),
   validation_rejects_before_external_calls.2.2.2.1 none doneOp (fun _ => doneOp) (by decide),
   validation_rejects_before_external_calls.2.2.2.2.1 (some "") delOk (by decide),
   validation_rejects_before_external_calls.2.2.2.2.2 none (some "true") delStoreOk (by decide)⟩

/-- C8: a successful query run returns 200 with the generated answer text
and the extracted citations; the citations have exactly one entry per
grounding chunk of the first candidate — each entry's segment being the
chunk's web URI if truthy, else its retrieved-context URI if truthy, else
the empty string, and carrying the chunk's optional confidence score — and
the citations are empty when candidates or grounding metadata or chunks
are absent. -/
theorem query_success_response_citations :
    (∀ (req : QueryRequest) (env : QueryEnv)
       (gen : List String → Except String GenResult)
       (slideGen : List String → Except String SlideContent)
       (slidesCreate : SlideContent → Except String String) (r : GenResult),
      strTruthy req.query = true →
      storeNamesInvalid req.fileSearchStoreNames = false →
      req.createSlides = false →
      gen (normalizeStores req.fileSearchStoreNames) = Except.ok r →
      strTruthy r.text = true →
      queryHandler req env gen slideGen slidesCreate =
        ((200, Body.queryOk (r.text.getD "") (extractCitations r) none),
         [Effect.call (ExtCall.generateContent (normalizeStores req.fileSearchStoreNames))])) ∧
    (∀ (r : GenResult) (cand : Candidate) (tail : List Candidate)
       (gm : GroundingMetadata) (chunks : List Chunk),
      r.candidates = some (cand :: tail) →
      cand.groundingMetadata = some gm →
      gm.groundingChunks = some chunks →
      (extractCitations r).length = chunks.length ∧
      (∀ (i : Nat) (ch : Chunk), chunks[i]? = some ch →
        (extractCitations r)[i]? = some
          { segment :=
              if strTruthy ch.webUri then ch.webUri.getD ""
              else if strTruthy ch.retrievedContextUri then ch.retrievedContextUri.getD ""
              else ""
            confidenceScore := ch.confidenceScore })) ∧
    (∀ (r : GenResult),
      (r.candidates = none → extractCitations r = []) ∧
      (r.candidates = some [] → extractCitations r = []) ∧
      (∀ (cand : Candidate) (tail : List Candidate),
        r.candidates = some (cand :: tail) →
        (cand.groundingMetadata = none → extractCitations r = []) ∧
        (∀ (gm : GroundingMetadata), cand.groundingMetadata = some gm →
          gm.groundingChunks = none → extractCitations r = []))) := by
  refine ⟨?_, ?_, ?_⟩
  · intro req env gen slideGen slidesCreate r hq hs hcs hgen htext
    simp [queryHandler, hq, hs, hcs, hgen, htext]
  · intro r cand tail gm chunks h1 h2 h3
    constructor
    · simp [extractCitations, h1, h2, h3]
    · intro i ch hch
      simp [extractCitations, h1, h2, h3, List.getElem?_map, hch, jsOr_chain]
  · intro r
    refine ⟨?_, ?_, ?_⟩
    · intro h; simp [extractCitations, h]
    · intro h; simp [extractCitations, h]
    · intro cand tail h1
      constructor
      · intro h2; simp [extractCitations, h1, h2]
      · intro gm h2 h3; simp [extractCitations, h1, h2, h3]

/-- C8 witness: a concrete successful query run carries the answer and the
two expected citations; a result without candidates has no citations. -/
theorem query_success_response_citations_witness :
    queryHandler ⟨some "q", StoreNamesField.arr ["stores/s1"], false⟩ ⟨true, true⟩
        genFix slideGenUnused slidesCreateUnused =
      ((200, Body.queryOk "answer text"
          [⟨"https://src/doc", some ⟨"0.93"⟩⟩, ⟨"ctx://doc2", none⟩] none),
       [Effect.call (ExtCall.generateContent ["stores/s1"])]) ∧
    (extractCitations genResultFix).length = 2 ∧
    (extractCitations genResultFix)[0]? = some ⟨"https://src/doc", some ⟨"0.93"⟩⟩ ∧
    extractCitations ⟨some "t", none⟩ = [] := by
  have h1 := query_success_response_citations.1
    ⟨some "q", StoreNamesField.arr ["stores/s1"], false⟩ ⟨true, true⟩
    genFix slideGenUnused slidesCreateUnused genResultFix
    (by decide) (by decide) rfl rfl (by decide)
  have h2 := query_success_response_citations.2.1 genResultFix
    ⟨some ⟨some [citedChunk, ctxChunk]⟩⟩ [] ⟨some [citedChunk, ctxChunk]⟩
    [citedChunk, ctxChunk] rfl rfl rfl
  have h3 := (query_success_response_citations.2.2 ⟨some "t", none⟩).1 rfl
  refine ⟨h1.trans (by decide), h2.1.trans (by decide), ?_, h3⟩
  exact (h2.2 0 citedChunk (by decide)).trans (by decide)

/-- C9 counterexample: the uri "/files/" contains the substring "/files/"
yet the regex `files\/[^/]+` has no match in it, and the handler forwards
the uri unchanged — so the forwarded name is not "the first match of the
pattern". -/
theorem import_file_name_no_match_counterexample :
    containsSub "/files/".toList "/files/".toList = true ∧
    firstFilesMatchAux "/files/".toList = none ∧
    importFileName "/files/" = "/files/" ∧
    (importHandler (some "/files/") doneOp (fun _ => doneOp)).2 =
      [Effect.call (ExtCall.importFile "/files/")] := by decide

/-- C9 amended: when fileUri contains "/files/" and the pattern
`files/<non-slash segment>` has a match, the first match is forwarded as
the file name; when fileUri does not contain "/files/", or contains it but
the pattern has no match (every occurrence of `files/` is followed by a
slash or the end of the string), the fileUri is forwarded unchanged. -/
theorem import_file_name_extraction :
    ∀ (uri : String) (op : ImportOperation) (refresh : Nat → ImportOperation),
      (∀ m : List Char, containsSub "/files/".toList uri.toList = true →
        firstFilesMatchAux uri.toList = some m → importFileName uri = String.mk m) ∧
      (containsSub "/files/".toList uri.toList = false → importFileName uri = uri) ∧
      (firstFilesMatchAux uri.toList = none → importFileName uri = uri) ∧
      (strTruthy (some uri) = true →
        ((importHandler (some uri) op refresh).2).head? =
          some (Effect.call (ExtCall.importFile (importFileName uri)))) := by
  intro uri op refresh
  refine ⟨?_, ?_, ?_, ?_⟩
  · intro m hc hm
    simp at hc hm
    simp [importFileName, hc, hm]
  · intro hc
    simp at hc
    simp [importFileName, hc]
  · intro hm
    simp at hm
    by_cases hc : containsSub "/files/".toList uri.toList = true
    · simp at hc
      simp [importFileName, hc, hm]
    · simp only [Bool.not_eq_true] at hc
      simp at hc
      simp [importFileName, hc]
  · intro ht
    simp [importHandler, ht]

/-- C9 amended witness: a uri with a matching segment forwards the first
match; a uri without "/files/" is forwarded unchanged; the import call
carries the extracted name. -/
theorem import_file_name_extraction_witness :
    importFileName "a/files/doc1" = String.mk "files/doc1".toList ∧
    importFileName "plain.txt" = "plain.txt" ∧
    ((importHandler (some "a/files/doc1") doneOp (fun _ => doneOp)).2).head? =
      some (Effect.call (ExtCall.importFile (importFileName "a/files/doc1"))) := by
  have h := import_file_name_extraction "a/files/doc1" doneOp (fun _ => doneOp)
  have h2 := import_file_name_extraction "plain.txt" doneOp (fun _ => doneOp)
  exact ⟨h.1 "files/doc1".toList (by decide) (by decide), h2.2.1 (by decide),
    h.2.2.2 (by decide)⟩

/-- After both validations pass, the query route only ever answers 200 or
500: every later branch (generation error, empty text, slides env checks,
slide oracles) carries one of those statuses. -/
lemma queryHandler_status_not400 (req : QueryRequest) (env : QueryEnv)
    (gen : List String → Except String GenResult)
    (slideGen : List String → Except String SlideContent)
    (slidesCreate : SlideContent → Except String String)
    (hq : strTruthy req.query = true)
    (hs : storeNamesInvalid req.fileSearchStoreNames = false) :
    (queryHandler req env gen slideGen slidesCreate).1.1 ≠ 400 := by
  simp only [queryHandler, hq, hs, Bool.not_true, Bool.false_eq_true, if_false, ite_false]
  cases hgen : gen (normalizeStores req.fileSearchStoreNames) with
  | error msg => simp
  | ok r =>
    by_cases ht : strTruthy r.text = true
    · simp only [ht, Bool.not_true, Bool.false_eq_true, if_false, ite_false]
      by_cases hcs : req.createSlides = true
      · simp only [hcs, if_true, ite_true]
        by_cases hk : env.geminiApiKey = true
        · simp only [hk, Bool.not_true, Bool.false_eq_true, if_false, ite_false]
          by_cases hg : env.googleCreds = true
          · simp only [hg, Bool.not_true, Bool.false_eq_true, if_false, ite_false]
            cases hsg : slideGen (normalizeStores req.fileSearchStoreNames) with
            | error msg => simp [hsg]
            | ok slideData =>
              cases hsc : slidesCreate slideData with
              | error msg => simp [hsc]
              | ok pid => simp [hsc]
          · simp only [Bool.not_eq_true] at hg
            simp [hg]
        · simp only [Bool.not_eq_true] at hk
          simp [hk]
      · simp only [Bool.not_eq_true] at hcs
        simp [hcs]
    · simp only [Bool.not_eq_true] at ht
      simp [ht]

/-- C10: a query request whose `fileSearchStoreNames` is a single
non-empty string is not rejected (given the query field itself passes
validation): it behaves exactly like the same request with the singleton
array, the scalar being wrapped into a one-element list before being
forwarded to the retrieval service. -/
theorem scalar_store_name_wrapped :
    ∀ (s : String) (q : Option String) (cs : Bool) (env : QueryEnv)
      (gen : List String → Except String GenResult)
      (slideGen : List String → Except String SlideContent)
      (slidesCreate : SlideContent → Except String String),
      s ≠ "" →
      strTruthy q = true →
      queryHandler ⟨q, StoreNamesField.str s, cs⟩ env gen slideGen slidesCreate =
        queryHandler ⟨q, StoreNamesField.arr [s], cs⟩ env gen slideGen slidesCreate ∧
      normalizeStores (StoreNamesField.str s) = [s] ∧
      (queryHandler ⟨q, StoreNamesField.str s, cs⟩ env gen slideGen slidesCreate).1.1 ≠ 400 := by
  intro s q cs env gen slideGen slidesCreate hne hq
  have hs : storeNamesInvalid (StoreNamesField.str s) = false := by
    simp only [storeNamesInvalid]
    exact strLength_ne_zero s hne
  have hs' : storeNamesInvalid (StoreNamesField.arr [s]) = false := rfl
  refine ⟨?_, rfl, queryHandler_status_not400 _ env gen slideGen slidesCreate hq hs⟩
  simp only [queryHandler, hq, hs, hs', normalizeStores, Bool.not_true,
    Bool.false_eq_true, if_false, ite_false]

/-- C10 witness: a concrete scalar-store request equals its
singleton-array counterpart and is not rejected with a 400. -/
theorem scalar_store_name_wrapped_witness :
    queryHandler ⟨some "q", StoreNamesField.str "stores/s1", false⟩ ⟨true, true⟩
        genFix slideGenUnused slidesCreateUnused =
      queryHandler ⟨some "q", StoreNamesField.arr ["stores/s1"], false⟩ ⟨true, true⟩
        genFix slideGenUnused slidesCreateUnused ∧
    normalizeStores (StoreNamesField.str "stores/s1") = ["stores/s1"] ∧
    (queryHandler ⟨some "q", StoreNamesField.str "stores/s1", false⟩ ⟨true, true⟩
        genFix slideGenUnused slidesCreateUnused).1.1 ≠ 400 :=
  scalar_store_name_wrapped "stores/s1" (some "q") false ⟨true, true⟩
    genFix slideGenUnused slidesCreateUnused (by decide) (by decide)
